import Mathlib

/-!
Verification of the HawkFuel (NutriNote) cloud-sync engine
(`src/services/syncService.js`) against its specification.

The sync engine is embedded shallowly: the browser-local store and the
remote document store are explicit states, every asynchronous operation
(remote get/set/delete, batch commit, recipe/template collection access)
is a fallible step driven by a fault oracle, and each exported function of
the module becomes a Lean function over those states.  Opaque JSON scalars
are modelled by `Nat`; JSON objects whose keys matter (the date-keyed food
log, the spread-based history documents) are association lists.
-/

namespace HawkFuel

/-- Opaque scalar payload values (profile objects, foods, goals, ...). -/
abbrev Val : Type := Nat

/-- Wall-clock timestamps (`new Date().toISOString()`). -/
abbrev Time : Type := Nat

/-- Calendar days (`toISOString().split("T")[0]`); never the literal key
`"updatedAt"`, so the date-keyed map is modelled with its own key type. -/
abbrev Day : Type := Nat

/-- A JSON object with string keys in insertion order, as produced by
`JSON.parse` / object spread in the source. -/
abbrev Obj : Type := List (String × Val)

/-- Property lookup `o[k]` on an association-list object. -/
def alGet {κ α : Type} [DecidableEq κ] : List (κ × α) → κ → Option α
  | [], _ => none
  | p :: t, k => if p.1 = k then some p.2 else alGet t k

/-- `k in o`. -/
def alHas {κ α : Type} [DecidableEq κ] (m : List (κ × α)) (k : κ) : Bool :=
  m.any (fun p => p.1 = k)

/-- JS object property write `o[k] = v`: replaces the value in place when
the key exists, otherwise appends the key. -/
def alSet {κ α : Type} [DecidableEq κ] (m : List (κ × α)) (k : κ) (v : α) :
    List (κ × α) :=
  if alHas m k then m.map (fun p => if p.1 = k then (k, v) else p)
  else m ++ [(k, v)]

/-- Destructuring a key away (`const { updatedAt, ...rest } = d`). -/
def alErase {κ α : Type} [DecidableEq κ] (m : List (κ × α)) (k : κ) :
    List (κ × α) :=
  m.filter (fun p => p.1 ≠ k)

/-- One item of the recipe / template local collections.  `isPrebuilt` is
the flag `syncTemplatesToCloud` filters on; `id` may be absent. -/
structure Item where
  id : Option Nat
  data : Val
  isPrebuilt : Bool
deriving DecidableEq

/-- One day's value in the date-keyed `foodLog` document:
`{ entries, exercise, water }`. -/
structure DayEntry where
  entries : List Val
  exercise : List Val
  water : Nat
deriving DecidableEq

/-- The date-keyed part of the `foodLog` document. -/
abbrev Days : Type := List (Day × DayEntry)

/-- The remote `foodLog` document: date-keyed map plus `updatedAt`. -/
structure FoodLogDoc where
  days : Days
  updatedAt : Time
deriving DecidableEq

/-- The non-`updatedAt` fields of the remote `profile` document (also the
payload shape of a `profile` single-record push). -/
structure ProfilePayload where
  userProfile : Option Val
  dailyTarget : Option Val
  macroGoals : Option Val
  micronutrientGoals : Option Val
  preferences : Option Val
  onboarding : Option Bool
  currentDate : Option Val
deriving DecidableEq

/-- The remote `profile` document. -/
structure ProfileDoc where
  userProfile : Option Val
  dailyTarget : Option Val
  macroGoals : Option Val
  micronutrientGoals : Option Val
  preferences : Option Val
  onboarding : Option Bool
  currentDate : Option Val
  updatedAt : Time
deriving DecidableEq

/-- `{ ...payload, updatedAt }` for a `profile` push. -/
def ProfileDoc.ofPayload (p : ProfilePayload) (now : Time) : ProfileDoc where
  userProfile := p.userProfile
  dailyTarget := p.dailyTarget
  macroGoals := p.macroGoals
  micronutrientGoals := p.micronutrientGoals
  preferences := p.preferences
  onboarding := p.onboarding
  currentDate := p.currentDate
  updatedAt := now

/-- A list-wrapped remote document `{ items, updatedAt }` over scalars
(favorites, recentFoods, weightLog). -/
structure ListDoc where
  items : List Val
  updatedAt : Time
deriving DecidableEq

/-- A list-wrapped remote document over collection items
(recipes, templates). -/
structure ItemsDoc where
  items : List Item
  updatedAt : Time
deriving DecidableEq

/-- The remote store: one document slot per record type under
`users/{userId}/data/{docId}`; `none` = the document does not exist. -/
structure Remote where
  profile : Option ProfileDoc
  foodLog : Option FoodLogDoc
  history : Option Obj
  foodHistory : Option Obj
  favorites : Option ListDoc
  recentFoods : Option ListDoc
  weightLog : Option ListDoc
  streakData : Option Obj
  recipes : Option ItemsDoc
  templates : Option ItemsDoc
deriving DecidableEq

/-- The browser-local store: the key-value slots the sync module reads and
writes (`utils/localStorage` is specified as a synchronous key-value
collaborator that never throws), plus the recipe/template collections. -/
structure Loc where
  userProfile : Option Val
  dailyTarget : Option Val
  macroGoals : Option Val
  microGoals : Option Val
  preferences : Option Val
  foodLog : List Val
  exerciseLog : List Val
  waterLog : Nat
  weeklyHistory : Obj
  foodHistory : Obj
  recentFoods : List Val
  favoriteFoods : List Val
  weightLog : List Val
  streakData : Obj
  currentDate : Option Val
  onboarding : Bool
  lastSync : Option Time
  recipes : List Item
  templates : List Item
deriving DecidableEq

/-- The ten remote document ids of the record catalog. -/
inductive DocId
  | profile | foodLog | history | foodHistory | favorites
  | recentFoods | weightLog | streakData | recipes | templates
deriving DecidableEq

/-- Observable effects of a run: remote-store accesses, the last-synced
timestamp write and the `nutrinote-sync-complete` event, and the
recipe/template collection accesses. -/
inductive Ev
  | getDoc (d : DocId)
  | setDoc (d : DocId)
  | batchCommit
  | deleteDoc (d : DocId)
  | saveLastSync (t : Time)
  | notifySyncComplete (t : Time)
  | readColl (d : DocId)
  | upsertItem (d : DocId)
deriving DecidableEq

/-- Remote-store writes (single set, batch commit, delete). -/
def isWrite : Ev → Bool
  | .setDoc _ => true
  | .batchCommit => true
  | .deleteDoc _ => true
  | _ => false

/-- Remote-store reads. -/
def isRead : Ev → Bool
  | .getDoc _ => true
  | _ => false

/-- Events a bulk download's body may produce: reads and local collection
upserts only — no remote write and no completion signal. -/
def readOnlyEv : Ev → Bool
  | .getDoc _ => true
  | .readColl _ => true
  | .upsertItem _ => true
  | _ => false

/-- The running state of one scenario: local store, remote store, the
trace of effects so far, and the count of fallible (asynchronous)
operations already attempted, which indexes the fault oracle. -/
structure St where
  loc : Loc
  rem : Remote
  tr : List Ev
  k : Nat
deriving DecidableEq

def St.init (loc : Loc) (rem : Remote) : St := ⟨loc, rem, [], 0⟩

/-- The fault oracle: `F n = true` means the `n`-th fallible operation of
the scenario rejects (transport/auth failure, collection access failure). -/
abbrev Oracle := Nat → Bool

def noFaults : Oracle := fun _ => false

/-- Result of an exported operation: resolved or rejected, with the state
reached either way. -/
inductive Outcome
  | ok (s : St)
  | threw (s : St)
deriving DecidableEq

def Outcome.isOk : Outcome → Bool
  | .ok _ => true
  | .threw _ => false

def Outcome.isThrown : Outcome → Bool
  | .ok _ => false
  | .threw _ => true

/-- The state an outcome carries. -/
def Outcome.st : Outcome → St
  | .ok s => s
  | .threw s => s

/-- The state carried by either arm of a fallible computation. -/
def comb : Except St St → St
  | .ok s => s
  | .error s => s

/-- One fallible asynchronous operation acting on the remote store (or
reading it, with `f = id`): the attempt is recorded in the trace and
consumes one oracle index; on success the effect applies, on failure the
stores are untouched. -/
def stepR (F : Oracle) (e : Ev) (f : Remote → Remote) (s : St) : Except St St :=
  let s' : St := { s with tr := s.tr ++ [e], k := s.k + 1 }
  if F s.k then .error s' else .ok { s' with rem := f s'.rem }

/-- One fallible asynchronous operation acting on the local collections
(`saveRecipe` / `saveTemplate`). -/
def stepL (F : Oracle) (e : Ev) (f : Loc → Loc) (s : St) : Except St St :=
  let s' : St := { s with tr := s.tr ++ [e], k := s.k + 1 }
  if F s.k then .error s' else .ok { s' with loc := f s'.loc }

/-- Kleisli sequencing of fallible stages (an `await` chain: a rejection
short-circuits the rest). -/
def seqE (f g : St → Except St St) (s : St) : Except St St :=
  match f s with
  | .ok s' => g s'
  | .error s' => .error s'

/-- An infallible synchronous stage. -/
def liftE (f : St → St) (s : St) : Except St St := .ok (f s)

/-- `saveLastSyncTime(now)` followed by dispatching the
`nutrinote-sync-complete` event (both synchronous, never failing). -/
def finishSync (now : Time) (s : St) : St :=
  { s with loc := { s.loc with lastSync := some now },
           tr := s.tr ++ [.saveLastSync now, .notifySyncComplete now] }

/-! ### Document construction (uploadLocalToCloud, lines 105–152) -/

/-- The `profileDoc` object built by `uploadLocalToCloud`. -/
def profileDocOf (l : Loc) (now : Time) : ProfileDoc where
  userProfile := l.userProfile
  dailyTarget := l.dailyTarget
  macroGoals := l.macroGoals
  micronutrientGoals := l.microGoals
  preferences := l.preferences
  onboarding := some l.onboarding
  currentDate := l.currentDate
  updatedAt := now

/-- The `foodLogDoc` object: only today's key, freshly built. -/
def foodLogDocOf (l : Loc) (now : Time) (today : Day) : FoodLogDoc where
  days := [(today, ⟨l.foodLog, l.exerciseLog, l.waterLog⟩)]
  updatedAt := now

/-- `{ ...m, updatedAt: now }` for the spread-based documents
(history, foodHistory, streakData). -/
def objDocOf (m : Obj) (now : Time) : Obj :=
  alSet m "updatedAt" now

/-- The effect of the atomic eight-document batch commit of
`uploadLocalToCloud` (lines 126–154). -/
def applyBatch (l : Loc) (now : Time) (today : Day) (r : Remote) : Remote :=
  { r with
    profile := some (profileDocOf l now)
    foodLog := some (foodLogDocOf l now today)
    history := some (objDocOf l.weeklyHistory now)
    foodHistory := some (objDocOf l.foodHistory now)
    favorites := some ⟨l.favoriteFoods, now⟩
    recentFoods := some ⟨l.recentFoods, now⟩
    weightLog := some ⟨l.weightLog, now⟩
    streakData := some (objDocOf l.streakData now) }

/-! ### Recipes / templates pushes (lines 401–427) -/

/-- `syncRecipesToCloud(userId, recipes)`: one remote write; its own
`try/catch` swallows the failure, so the function never rejects. -/
def syncRecipesToCloud (F : Oracle) (cfg : Bool) (uid : Option Nat)
    (recipes : List Item) (now : Time) (s : St) : St :=
  if !cfg || uid.isNone then s
  else comb (stepR F (.setDoc .recipes)
    (fun r => { r with recipes := some ⟨recipes, now⟩ }) s)

/-- `syncTemplatesToCloud(userId, templates)`: drops prebuilt templates
(`(templates || []).filter((t) => !t.isPrebuilt)`), one remote write,
failure swallowed. -/
def syncTemplatesToCloud (F : Oracle) (cfg : Bool) (uid : Option Nat)
    (templates : Option (List Item)) (now : Time) (s : St) : St :=
  if !cfg || uid.isNone then s
  else
    let userTemplates := (templates.getD []).filter (fun t => !t.isPrebuilt)
    comb (stepR F (.setDoc .templates)
      (fun r => { r with templates := some ⟨userTemplates, now⟩ }) s)

/-! ### Bulk upload (uploadLocalToCloud, lines 84–168) -/

/-- The best-effort recipes/templates step after the batch (lines 159–167):
`getAllRecipes` / `getAllTemplates` are fallible collection reads; the two
pushes never reject by themselves. -/
def recipeTemplateStep (F : Oracle) (cfg : Bool) (uid : Option Nat)
    (now : Time) : St → Except St St :=
  seqE (stepR F (.readColl .recipes) id)
  (seqE (fun s => .ok (syncRecipesToCloud F cfg uid s.loc.recipes now s))
  (seqE (stepR F (.readColl .templates) id)
  (fun s => .ok (syncTemplatesToCloud F cfg uid (some s.loc.templates) now s))))

/-- `uploadLocalToCloud(userId)`: guard, atomic batch commit, last-synced
timestamp and sync-complete event, then the best-effort recipes/templates
step wrapped in `try/catch`.  A commit rejection propagates. -/
def uploadLocalToCloud (F : Oracle) (cfg : Bool) (uid : Option Nat)
    (now : Time) (today : Day) (s : St) : Outcome :=
  if !cfg then .ok s
  else
    match stepR F .batchCommit (applyBatch s.loc now today) s with
    | .error s' => .threw s'
    | .ok s' =>
      let s2 := finishSync now s'
      match recipeTemplateStep F cfg uid now s2 with
      | .ok s3 => .ok s3
      | .error s3 => .ok s3

/-! ### Bulk download (syncFromCloud, lines 173–272) -/

/-- Hydrating the profile snapshot (lines 196–206): each present field
overwrites its local slot; a remote `onboarding: true` marks onboarding
complete and `false` leaves the local flag alone. -/
def applyProfileSnap (s : St) : St :=
  match s.rem.profile with
  | none => s
  | some d =>
    { s with loc := { s.loc with
        userProfile := d.userProfile.or s.loc.userProfile
        dailyTarget := d.dailyTarget.or s.loc.dailyTarget
        macroGoals := d.macroGoals.or s.loc.macroGoals
        microGoals := d.micronutrientGoals.or s.loc.microGoals
        preferences := d.preferences.or s.loc.preferences
        onboarding := s.loc.onboarding || d.onboarding.getD false } }

/-- Hydrating the food-log snapshot (lines 208–217): only today's key is
applied locally. -/
def applyFoodLogSnap (today : Day) (s : St) : St :=
  match s.rem.foodLog with
  | none => s
  | some d =>
    match alGet d.days today with
    | none => s
    | some td =>
      { s with loc := { s.loc with
          foodLog := td.entries
          exerciseLog := td.exercise
          waterLog := td.water } }

/-- Lines 219–223: strip `updatedAt`, replace the slot wholly. -/
def applyHistorySnap (s : St) : St :=
  match s.rem.history with
  | none => s
  | some d => { s with loc := { s.loc with weeklyHistory := alErase d "updatedAt" } }

/-- Lines 225–229. -/
def applyFoodHistorySnap (s : St) : St :=
  match s.rem.foodHistory with
  | none => s
  | some d => { s with loc := { s.loc with foodHistory := alErase d "updatedAt" } }

/-- Lines 231–234: unwrap `items`, replace the slot wholly. -/
def applyFavoritesSnap (s : St) : St :=
  match s.rem.favorites with
  | none => s
  | some d => { s with loc := { s.loc with favoriteFoods := d.items } }

/-- Lines 236–239. -/
def applyRecentSnap (s : St) : St :=
  match s.rem.recentFoods with
  | none => s
  | some d => { s with loc := { s.loc with recentFoods := d.items } }

/-- Lines 241–244. -/
def applyWeightSnap (s : St) : St :=
  match s.rem.weightLog with
  | none => s
  | some d => { s with loc := { s.loc with weightLog := d.items } }

/-- Lines 246–250. -/
def applyStreakSnap (s : St) : St :=
  match s.rem.streakData with
  | none => s
  | some d => { s with loc := { s.loc with streakData := alErase d "updatedAt" } }

/-- Modelled from the spec: `saveRecipe` / `saveTemplate` of the local
recipe/template databases (`services/recipeDatabase.js` and
`services/templateDatabase.js` are not among the repository's staged
files).  Per §4.3 each downloaded item is upserted into the collection by
id, and an item without an id is assigned a generated id. -/
def saveItem (coll : List Item) (it : Item) (gen : Nat) : List Item :=
  let newId := it.id.getD gen
  if coll.any (fun j => j.id = some newId) then
    coll.map (fun j => if j.id = some newId then { it with id := some newId } else j)
  else coll ++ [{ it with id := some newId }]

/-- Folding `saveItem` over a list of downloaded items, threading the
generated-id source. -/
def mergeMany (coll : List Item) (gen : Nat) : List Item → List Item
  | [] => coll
  | it :: rest => mergeMany (saveItem coll it gen) (gen + 1) rest

/-- The `for ... await saveRecipe(...)` loop (lines 255–257): each upsert
is a fallible asynchronous collection write; a rejection aborts the rest
(and surfaces to the top-level `catch`). -/
def saveRecipesLoop (F : Oracle) (gen : Nat) : List Item → St → Except St St
  | [] => fun s => .ok s
  | it :: rest =>
    seqE (stepL F (.upsertItem .recipes)
            (fun l => { l with recipes := saveItem l.recipes it gen }))
         (saveRecipesLoop F (gen + 1) rest)

/-- The `for ... await saveTemplate(...)` loop (lines 262–264). -/
def saveTemplatesLoop (F : Oracle) (gen : Nat) : List Item → St → Except St St
  | [] => fun s => .ok s
  | it :: rest =>
    seqE (stepL F (.upsertItem .templates)
            (fun l => { l with templates := saveItem l.templates it gen }))
         (saveTemplatesLoop F (gen + 1) rest)

/-- Lines 254–258: hydrate recipes when the document exists and has a
non-empty `items`. -/
def recipesHydrate (F : Oracle) (now : Time) (s : St) : Except St St :=
  match s.rem.recipes with
  | none => .ok s
  | some d => if d.items.length > 0 then saveRecipesLoop F now d.items s else .ok s

/-- Lines 260–265. -/
def templatesHydrate (F : Oracle) (now : Time) (s : St) : Except St St :=
  match s.rem.templates with
  | none => .ok s
  | some d => if d.items.length > 0 then saveTemplatesLoop F now d.items s else .ok s

/-- Everything inside `syncFromCloud`'s `try` up to (not including) the
final last-synced/notify pair: the eight document reads, the local
hydration, and the recipe/template hydration. -/
def downCore (F : Oracle) (now : Time) (today : Day) : St → Except St St :=
  seqE (stepR F (.getDoc .profile) id)
  (seqE (stepR F (.getDoc .foodLog) id)
  (seqE (stepR F (.getDoc .history) id)
  (seqE (stepR F (.getDoc .foodHistory) id)
  (seqE (stepR F (.getDoc .favorites) id)
  (seqE (stepR F (.getDoc .recentFoods) id)
  (seqE (stepR F (.getDoc .weightLog) id)
  (seqE (stepR F (.getDoc .streakData) id)
  (seqE (liftE applyProfileSnap)
  (seqE (liftE (applyFoodLogSnap today))
  (seqE (liftE applyHistorySnap)
  (seqE (liftE applyFoodHistorySnap)
  (seqE (liftE applyFavoritesSnap)
  (seqE (liftE applyRecentSnap)
  (seqE (liftE applyWeightSnap)
  (seqE (liftE applyStreakSnap)
  (seqE (stepR F (.getDoc .recipes) id)
  (seqE (recipesHydrate F now)
  (seqE (stepR F (.getDoc .templates) id)
  (templatesHydrate F now)))))))))))))))))))

/-- The whole `try` body: core pass, then timestamp + notification. -/
def downBody (F : Oracle) (now : Time) (today : Day) (s : St) : Except St St :=
  match downCore F now today s with
  | .ok s' => .ok (finishSync now s')
  | .error s' => .error s'

/-- `syncFromCloud(userId)`: guard, then the `try` body with a top-level
`catch` that logs — the operation never rejects. -/
def syncFromCloud (F : Oracle) (cfg : Bool) (now : Time) (today : Day)
    (s : St) : Outcome :=
  if !cfg then .ok s
  else
    match downBody F now today s with
    | .ok s' => .ok s'
    | .error s' => .ok s'

/-! ### Sign-in reconciliation (syncOnSignIn, lines 279–295) -/

/-- `syncOnSignIn(user)`: guard on user and configuration, one profile
existence check (no `catch` of its own), then download, migration upload,
or nothing.  `hasLocalData = loadUserProfile() || foodLog.length > 0`. -/
def syncOnSignIn (F : Oracle) (cfg : Bool) (user : Option Nat)
    (now : Time) (today : Day) (s : St) : Outcome :=
  if user.isNone || !cfg then .ok s
  else
    match stepR F (.getDoc .profile) id s with
    | .error s' => .threw s'
    | .ok s' =>
      if s'.rem.profile.isSome then
        syncFromCloud F cfg now today s'
      else
        if s'.loc.userProfile.isSome || !s'.loc.foodLog.isEmpty then
          uploadLocalToCloud F cfg user now today s'
        else .ok s'

/-! ### Single-record push (syncToCloud, lines 300–370) -/

/-- The payload of a single-record push, per record type shape:
spread object, food-log fields (each possibly absent, with the
`|| []` / `?? 0` defaults applied by the engine), or an items list. -/
inductive Payload
  | profile (p : ProfilePayload)
  | log (entries : Option (List Val)) (exercise : Option (List Val)) (water : Option Nat)
  | obj (fields : Obj)
  | list (items : List Val)
deriving DecidableEq

/-- The `switch (dataType)` body inside `syncToCloud`'s `try`.  The
`default` branch (and a payload whose shape no caller produces for the
tag) does nothing.  The `foodLog` case is read-modify-write: fetch the
existing document, replace today's key, rewrite the whole document. -/
def pushInner (F : Oracle) (tag : String) (payload : Payload)
    (now : Time) (today : Day) (s : St) : Except St St :=
  if tag = "profile" then
    match payload with
    | .profile p =>
      stepR F (.setDoc .profile)
        (fun r => { r with profile := some (ProfileDoc.ofPayload p now) }) s
    | _ => .ok s
  else if tag = "foodLog" then
    match payload with
    | .log e x w =>
      seqE (stepR F (.getDoc .foodLog) id)
        (fun s1 =>
          let existing := (s1.rem.foodLog).getD ⟨[], 0⟩
          let entry : DayEntry := ⟨e.getD [], x.getD [], w.getD 0⟩
          stepR F (.setDoc .foodLog)
            (fun r => { r with foodLog := some ⟨alSet existing.days today entry, now⟩ }) s1) s
    | _ => .ok s
  else if tag = "history" then
    match payload with
    | .obj m =>
      stepR F (.setDoc .history)
        (fun r => { r with history := some (objDocOf m now) }) s
    | _ => .ok s
  else if tag = "foodHistory" then
    match payload with
    | .obj m =>
      stepR F (.setDoc .foodHistory)
        (fun r => { r with foodHistory := some (objDocOf m now) }) s
    | _ => .ok s
  else if tag = "favorites" then
    match payload with
    | .list xs =>
      stepR F (.setDoc .favorites)
        (fun r => { r with favorites := some ⟨xs, now⟩ }) s
    | _ => .ok s
  else if tag = "recentFoods" then
    match payload with
    | .list xs =>
      stepR F (.setDoc .recentFoods)
        (fun r => { r with recentFoods := some ⟨xs, now⟩ }) s
    | _ => .ok s
  else if tag = "weightLog" then
    match payload with
    | .list xs =>
      stepR F (.setDoc .weightLog)
        (fun r => { r with weightLog := some ⟨xs, now⟩ }) s
    | _ => .ok s
  else if tag = "streakData" then
    match payload with
    | .obj m =>
      stepR F (.setDoc .streakData)
        (fun r => { r with streakData := some (objDocOf m now) }) s
    | _ => .ok s
  else .ok s

/-- `syncToCloud(userId, dataType, payload)`: guard, the switch inside a
`try` whose `catch` logs and rethrows — a transport failure rejects to
the caller. -/
def syncToCloud (F : Oracle) (cfg : Bool) (uid : Option Nat) (tag : String)
    (payload : Payload) (now : Time) (today : Day) (s : St) : Outcome :=
  if !cfg || uid.isNone then .ok s
  else
    match pushInner F tag payload now today s with
    | .ok s' => .ok s'
    | .error s' => .threw s'

/-! ### Account erasure (deleteUserCloudData, lines 374–396) -/

/-- Lines 374–385: the ten document ids, in order. -/
def USER_DATA_DOCS : List DocId :=
  [.profile, .foodLog, .history, .foodHistory, .favorites,
   .recentFoods, .weightLog, .streakData, .recipes, .templates]

/-- Deleting one remote document slot. -/
def removeDoc (d : DocId) (r : Remote) : Remote :=
  match d with
  | .profile => { r with profile := none }
  | .foodLog => { r with foodLog := none }
  | .history => { r with history := none }
  | .foodHistory => { r with foodHistory := none }
  | .favorites => { r with favorites := none }
  | .recentFoods => { r with recentFoods := none }
  | .weightLog => { r with weightLog := none }
  | .streakData => { r with streakData := none }
  | .recipes => { r with recipes := none }
  | .templates => { r with templates := none }

/-- One settled deletion attempt: recorded whether it succeeds or fails,
its failure ignored (`Promise.allSettled`). -/
def attemptDelete (F : Oracle) (d : DocId) (s : St) : St :=
  comb (stepR F (.deleteDoc d) (removeDoc d) s)

/-- `deleteUserCloudData(userId)`: guard, then every deletion attempted
independently; the operation waits for all attempts to settle and never
rejects. -/
def deleteUserCloudData (F : Oracle) (cfg : Bool) (uid : Option Nat)
    (s : St) : Outcome :=
  if !cfg || uid.isNone then .ok s
  else .ok (USER_DATA_DOCS.foldl (fun s d => attemptDelete F d s) s)

/-! ### Helper notions for the statements and proofs -/

/-- The remote state produced by a fault-free `uploadLocalToCloud`: the
eight-document atomic batch, then the recipes and (prebuilt-filtered)
templates documents. -/
def uploadedRemote (l : Loc) (rem : Remote) (now : Time) (today : Day) : Remote :=
  { applyBatch l now today rem with
    recipes := some ⟨l.recipes, now⟩
    templates := some ⟨l.templates.filter (fun t => !t.isPrebuilt), now⟩ }

/-- A download-body stage: it may append only read/hydration events to the
trace (no remote write, no last-synced write, no completion notification)
and leaves the local last-synced slot untouched. -/
def DStep (f : St → Except St St) : Prop :=
  ∀ s, ∃ ext, (comb (f s)).tr = s.tr ++ ext ∧ (∀ e ∈ ext, readOnlyEv e = true) ∧
    (comb (f s)).loc.lastSync = s.loc.lastSync

/-- A stage that leaves the whole local store untouched and only appends
to the trace (the after-commit best-effort step of the upload is one). -/
def LStep (f : St → Except St St) : Prop :=
  ∀ s, (comb (f s)).loc = s.loc ∧ ∃ ext, (comb (f s)).tr = s.tr ++ ext

/-- The date-keyed map of the remote `foodLog` document (empty when the
document does not exist, matching the `{}` default of the push). -/
def remFoodDays (r : Remote) : Days :=
  match r.foodLog with
  | some d => d.days
  | none => []

/-- The eight record-type tags the single-record push dispatches on. -/
def handledTags : List String :=
  ["profile", "foodLog", "history", "foodHistory", "favorites",
   "recentFoods", "weightLog", "streakData"]

/-- A push request a handled switch case actually writes: one of the eight
tags together with the payload shape its case expects. -/
def handledReq (tag : String) (p : Payload) : Bool :=
  if tag = "profile" then (match p with | .profile _ => true | _ => false)
  else if tag = "foodLog" then (match p with | .log _ _ _ => true | _ => false)
  else if tag = "history" then (match p with | .obj _ => true | _ => false)
  else if tag = "foodHistory" then (match p with | .obj _ => true | _ => false)
  else if tag = "favorites" then (match p with | .list _ => true | _ => false)
  else if tag = "recentFoods" then (match p with | .list _ => true | _ => false)
  else if tag = "weightLog" then (match p with | .list _ => true | _ => false)
  else if tag = "streakData" then (match p with | .obj _ => true | _ => false)
  else false

/-- An empty remote account (no document exists). -/
def emptyRemote : Remote where
  profile := none
  foodLog := none
  history := none
  foodHistory := none
  favorites := none
  recentFoods := none
  weightLog := none
  streakData := none
  recipes := none
  templates := none

/-- A concrete, fully populated local store used by witnesses. -/
def sampleLoc : Loc where
  userProfile := some 1
  dailyTarget := some 2
  macroGoals := some 3
  microGoals := some 4
  preferences := some 5
  foodLog := [10, 11]
  exerciseLog := [12]
  waterLog := 500
  weeklyHistory := [("w1", 7)]
  foodHistory := [("apple", 9)]
  recentFoods := [20]
  favoriteFoods := [21]
  weightLog := [22]
  streakData := [("current", 3)]
  currentDate := some 99
  onboarding := true
  lastSync := none
  recipes := [⟨some 5, 50, false⟩]
  templates := [⟨some 6, 60, false⟩, ⟨some 7, 70, true⟩]

/-- A trivial local store: no profile, empty food log. -/
def trivialLoc : Loc :=
  { sampleLoc with userProfile := none, foodLog := [] }

/-- A local store whose foodHistory object itself carries an `updatedAt`
key, and whose last-synced slot is set. -/
def clashLoc : Loc :=
  { sampleLoc with foodHistory := [("updatedAt", 7)], lastSync := some 3 }

/-! ## Lemmas: association lists -/

theorem alGet_map_set {κ α : Type} [DecidableEq κ] (t : List (κ × α)) (k j : κ)
    (v : α) (hj : j ≠ k) :
    alGet (t.map (fun q => if q.1 = k then (k, v) else q)) j = alGet t j := by
  induction t with
  | nil => rfl
  | cons p t ih =>
    by_cases hp : p.1 = k
    · have hk : ¬(k = j) := fun h => hj h.symm
      simp [alGet, hp, hk, ih]
    · simp [alGet, hp, ih]

theorem alGet_map_set_self {κ α : Type} [DecidableEq κ] (t : List (κ × α))
    (k : κ) (v : α) (h : alHas t k = true) :
    alGet (t.map (fun q => if q.1 = k then (k, v) else q)) k = some v := by
  induction t with
  | nil => simp [alHas] at h
  | cons p t ih =>
    by_cases hp : p.1 = k
    · simp [alGet, hp]
    · have ht : alHas t k = true := by
        simp [alHas, hp] at h ⊢
        exact h
      simp [alGet, hp, ih ht]

theorem alGet_append {κ α : Type} [DecidableEq κ] (a b : List (κ × α)) (j : κ) :
    alGet (a ++ b) j = (alGet a j).or (alGet b j) := by
  induction a with
  | nil => simp [alGet]
  | cons p t ih => by_cases hp : p.1 = j <;> simp [alGet, hp, ih]

theorem alGet_of_not_has {κ α : Type} [DecidableEq κ] (m : List (κ × α)) (k : κ)
    (h : alHas m k = false) : alGet m k = none := by
  induction m with
  | nil => rfl
  | cons p t ih =>
    simp [alHas] at h
    have ht : alHas t k = false := by
      simp [alHas]
      exact h.2
    simp [alGet, h.1, ih ht]

theorem alSet_of_not_has {κ α : Type} [DecidableEq κ] (m : List (κ × α)) (k : κ)
    (v : α) (h : alHas m k = false) : alSet m k v = m ++ [(k, v)] := by
  rw [alSet, if_neg (by simp [h])]

theorem alGet_alSet_self {κ α : Type} [DecidableEq κ] (m : List (κ × α)) (k : κ)
    (v : α) : alGet (alSet m k v) k = some v := by
  by_cases h : alHas m k
  · simp [alSet, h, alGet_map_set_self m k v h]
  · have hf : alHas m k = false := by simpa using h
    rw [alSet_of_not_has m k v hf, alGet_append, alGet_of_not_has m k hf]
    simp [alGet]

theorem alGet_alSet_ne {κ α : Type} [DecidableEq κ] (m : List (κ × α)) (k j : κ)
    (v : α) (hj : j ≠ k) : alGet (alSet m k v) j = alGet m j := by
  by_cases h : alHas m k
  · simp [alSet, h, alGet_map_set m k j v hj]
  · have hf : alHas m k = false := by simpa using h
    rw [alSet_of_not_has m k v hf, alGet_append]
    have h1 : alGet [(k, v)] j = none := by
      simp [alGet, Ne.symm hj]
    rw [h1]
    cases alGet m j <;> rfl

theorem alErase_of_not_has {κ α : Type} [DecidableEq κ] (m : List (κ × α)) (k : κ)
    (h : alHas m k = false) : alErase m k = m := by
  induction m with
  | nil => rfl
  | cons p t ih =>
    simp [alHas] at h
    have ht : alHas t k = false := by
      simp [alHas]
      exact h.2
    simp [alErase] at ih ⊢
    exact ⟨h.1, ih ht⟩

theorem alErase_append {κ α : Type} [DecidableEq κ] (a b : List (κ × α)) (k : κ) :
    alErase (a ++ b) k = alErase a k ++ alErase b k := by
  simp [alErase, List.filter_append]

theorem alErase_single_self {κ α : Type} [DecidableEq κ] (k : κ) (v : α) :
    alErase [(k, v)] k = ([] : List (κ × α)) := by
  simp [alErase]

theorem alErase_alSet {κ α : Type} [DecidableEq κ] (m : List (κ × α)) (k : κ)
    (v : α) (h : alHas m k = false) : alErase (alSet m k v) k = m := by
  rw [alSet_of_not_has m k v h, alErase_append, alErase_of_not_has m k h,
    alErase_single_self, List.append_nil]

/-! ## Lemmas: fallible steps -/

theorem stepR_noFaults (e : Ev) (f : Remote → Remote) (s : St) :
    stepR noFaults e f s = .ok ⟨s.loc, f s.rem, s.tr ++ [e], s.k + 1⟩ := rfl

theorem stepL_noFaults (e : Ev) (f : Loc → Loc) (s : St) :
    stepL noFaults e f s = .ok ⟨f s.loc, s.rem, s.tr ++ [e], s.k + 1⟩ := rfl

theorem comb_stepR (F : Oracle) (e : Ev) (f : Remote → Remote) (s : St) :
    comb (stepR F e f s) =
      if F s.k then ⟨s.loc, s.rem, s.tr ++ [e], s.k + 1⟩
      else ⟨s.loc, f s.rem, s.tr ++ [e], s.k + 1⟩ := by
  by_cases h : F s.k <;> simp [stepR, comb, h]

theorem comb_stepL (F : Oracle) (e : Ev) (f : Loc → Loc) (s : St) :
    comb (stepL F e f s) =
      if F s.k then ⟨s.loc, s.rem, s.tr ++ [e], s.k + 1⟩
      else ⟨f s.loc, s.rem, s.tr ++ [e], s.k + 1⟩ := by
  by_cases h : F s.k <;> simp [stepL, comb, h]

theorem roGetDoc (d : DocId) : readOnlyEv (.getDoc d) = true := rfl

theorem roReadColl (d : DocId) : readOnlyEv (.readColl d) = true := rfl

theorem roUpsert (d : DocId) : readOnlyEv (.upsertItem d) = true := rfl

theorem dstep_seqE {f g : St → Except St St} (hf : DStep f) (hg : DStep g) :
    DStep (seqE f g) := by
  intro s
  obtain ⟨e1, h1, m1, l1⟩ := hf s
  cases hfs : f s with
  | error s' =>
    rw [hfs] at h1 l1
    refine ⟨e1, ?_, m1, ?_⟩ <;> simp only [seqE, hfs, comb] at h1 l1 ⊢ <;> assumption
  | ok s' =>
    obtain ⟨e2, h2, m2, l2⟩ := hg s'
    rw [hfs] at h1 l1
    simp only [comb] at h1 l1
    refine ⟨e1 ++ e2, ?_, ?_, ?_⟩
    · simp only [seqE, hfs]
      rw [h2, h1, List.append_assoc]
    · intro e he
      rcases List.mem_append.mp he with h | h
      · exact m1 e h
      · exact m2 e h
    · simp only [seqE, hfs]
      rw [l2, l1]

theorem dstep_stepR {e : Ev} (he : readOnlyEv e = true) (F : Oracle)
    (f : Remote → Remote) : DStep (stepR F e f) := by
  intro s
  refine ⟨[e], ?_, ?_, ?_⟩
  · by_cases h : F s.k <;> simp [stepR, comb, h]
  · intro x hx
    simp at hx
    subst hx
    exact he
  · by_cases h : F s.k <;> simp [stepR, comb, h]

theorem dstep_stepL {e : Ev} (he : readOnlyEv e = true) (F : Oracle)
    {f : Loc → Loc} (hf : ∀ l, (f l).lastSync = l.lastSync) :
    DStep (stepL F e f) := by
  intro s
  refine ⟨[e], ?_, ?_, ?_⟩
  · by_cases h : F s.k <;> simp [stepL, comb, h]
  · intro x hx
    simp at hx
    subst hx
    exact he
  · by_cases h : F s.k <;> simp [stepL, comb, h, hf]

theorem dstep_liftE {f : St → St} (h1 : ∀ s, (f s).tr = s.tr)
    (h2 : ∀ s, (f s).loc.lastSync = s.loc.lastSync) : DStep (liftE f) := by
  intro s
  exact ⟨[], by simp [liftE, comb, h1], by simp, by simp [liftE, comb, h2]⟩

/-! ## Lemmas: the hydration stages touch neither the trace nor the
last-synced slot -/

theorem applyProfileSnap_tr (s : St) : (applyProfileSnap s).tr = s.tr := by
  cases h : s.rem.profile <;> simp [applyProfileSnap, h]

theorem applyProfileSnap_lastSync (s : St) :
    (applyProfileSnap s).loc.lastSync = s.loc.lastSync := by
  cases h : s.rem.profile <;> simp [applyProfileSnap, h]

theorem applyFoodLogSnap_tr (today : Day) (s : St) :
    (applyFoodLogSnap today s).tr = s.tr := by
  cases h : s.rem.foodLog with
  | none => simp [applyFoodLogSnap, h]
  | some d => cases h2 : alGet d.days today <;> simp [applyFoodLogSnap, h, h2]

theorem applyFoodLogSnap_lastSync (today : Day) (s : St) :
    (applyFoodLogSnap today s).loc.lastSync = s.loc.lastSync := by
  cases h : s.rem.foodLog with
  | none => simp [applyFoodLogSnap, h]
  | some d => cases h2 : alGet d.days today <;> simp [applyFoodLogSnap, h, h2]

theorem applyHistorySnap_tr (s : St) : (applyHistorySnap s).tr = s.tr := by
  cases h : s.rem.history <;> simp [applyHistorySnap, h]

theorem applyHistorySnap_lastSync (s : St) :
    (applyHistorySnap s).loc.lastSync = s.loc.lastSync := by
  cases h : s.rem.history <;> simp [applyHistorySnap, h]

theorem applyFoodHistorySnap_tr (s : St) : (applyFoodHistorySnap s).tr = s.tr := by
  cases h : s.rem.foodHistory <;> simp [applyFoodHistorySnap, h]

theorem applyFoodHistorySnap_lastSync (s : St) :
    (applyFoodHistorySnap s).loc.lastSync = s.loc.lastSync := by
  cases h : s.rem.foodHistory <;> simp [applyFoodHistorySnap, h]

theorem applyFavoritesSnap_tr (s : St) : (applyFavoritesSnap s).tr = s.tr := by
  cases h : s.rem.favorites <;> simp [applyFavoritesSnap, h]

theorem applyFavoritesSnap_lastSync (s : St) :
    (applyFavoritesSnap s).loc.lastSync = s.loc.lastSync := by
  cases h : s.rem.favorites <;> simp [applyFavoritesSnap, h]

theorem applyRecentSnap_tr (s : St) : (applyRecentSnap s).tr = s.tr := by
  cases h : s.rem.recentFoods <;> simp [applyRecentSnap, h]

theorem applyRecentSnap_lastSync (s : St) :
    (applyRecentSnap s).loc.lastSync = s.loc.lastSync := by
  cases h : s.rem.recentFoods <;> simp [applyRecentSnap, h]

theorem applyWeightSnap_tr (s : St) : (applyWeightSnap s).tr = s.tr := by
  cases h : s.rem.weightLog <;> simp [applyWeightSnap, h]

theorem applyWeightSnap_lastSync (s : St) :
    (applyWeightSnap s).loc.lastSync = s.loc.lastSync := by
  cases h : s.rem.weightLog <;> simp [applyWeightSnap, h]

theorem applyStreakSnap_tr (s : St) : (applyStreakSnap s).tr = s.tr := by
  cases h : s.rem.streakData <;> simp [applyStreakSnap, h]

theorem applyStreakSnap_lastSync (s : St) :
    (applyStreakSnap s).loc.lastSync = s.loc.lastSync := by
  cases h : s.rem.streakData <;> simp [applyStreakSnap, h]

/-! ## Lemmas: hydration loops -/

theorem dstep_saveRecipesLoop (F : Oracle) (items : List Item) :
    ∀ gen, DStep (saveRecipesLoop F gen items) := by
  induction items with
  | nil =>
    intro gen s
    exact ⟨[], by simp [saveRecipesLoop, comb], by simp, rfl⟩
  | cons it rest ih =>
    intro gen
    exact dstep_seqE (dstep_stepL (roUpsert _) F (fun l => rfl)) (ih (gen + 1))

theorem dstep_saveTemplatesLoop (F : Oracle) (items : List Item) :
    ∀ gen, DStep (saveTemplatesLoop F gen items) := by
  induction items with
  | nil =>
    intro gen s
    exact ⟨[], by simp [saveTemplatesLoop, comb], by simp, rfl⟩
  | cons it rest ih =>
    intro gen
    exact dstep_seqE (dstep_stepL (roUpsert _) F (fun l => rfl)) (ih (gen + 1))

theorem recipesHydrate_eq (F : Oracle) (now : Time) (s : St) :
    recipesHydrate F now s =
      match s.rem.recipes with
      | none => .ok s
      | some d => saveRecipesLoop F now d.items s := by
  cases h : s.rem.recipes with
  | none => simp [recipesHydrate, h]
  | some d =>
    cases hd : d.items with
    | nil => simp [recipesHydrate, h, hd, saveRecipesLoop]
    | cons a t => simp [recipesHydrate, h, hd]

theorem templatesHydrate_eq (F : Oracle) (now : Time) (s : St) :
    templatesHydrate F now s =
      match s.rem.templates with
      | none => .ok s
      | some d => saveTemplatesLoop F now d.items s := by
  cases h : s.rem.templates with
  | none => simp [templatesHydrate, h]
  | some d =>
    cases hd : d.items with
    | nil => simp [templatesHydrate, h, hd, saveTemplatesLoop]
    | cons a t => simp [templatesHydrate, h, hd]

theorem dstep_recipesHydrate (F : Oracle) (now : Time) :
    DStep (recipesHydrate F now) := by
  intro s
  rw [recipesHydrate_eq]
  cases h : s.rem.recipes with
  | none => exact ⟨[], by simp [comb], by simp, rfl⟩
  | some d => exact dstep_saveRecipesLoop F d.items now s

theorem dstep_templatesHydrate (F : Oracle) (now : Time) :
    DStep (templatesHydrate F now) := by
  intro s
  rw [templatesHydrate_eq]
  cases h : s.rem.templates with
  | none => exact ⟨[], by simp [comb], by simp, rfl⟩
  | some d => exact dstep_saveTemplatesLoop F d.items now s

/-- The download body before the completion signal is read-only on the
trace and never touches the last-synced slot. -/
theorem dstep_downCore (F : Oracle) (now : Time) (today : Day) :
    DStep (downCore F now today) := by
  unfold downCore
  refine dstep_seqE (dstep_stepR (roGetDoc _) F id) ?_
  refine dstep_seqE (dstep_stepR (roGetDoc _) F id) ?_
  refine dstep_seqE (dstep_stepR (roGetDoc _) F id) ?_
  refine dstep_seqE (dstep_stepR (roGetDoc _) F id) ?_
  refine dstep_seqE (dstep_stepR (roGetDoc _) F id) ?_
  refine dstep_seqE (dstep_stepR (roGetDoc _) F id) ?_
  refine dstep_seqE (dstep_stepR (roGetDoc _) F id) ?_
  refine dstep_seqE (dstep_stepR (roGetDoc _) F id) ?_
  refine dstep_seqE (dstep_liftE applyProfileSnap_tr applyProfileSnap_lastSync) ?_
  refine dstep_seqE (dstep_liftE (applyFoodLogSnap_tr today) (applyFoodLogSnap_lastSync today)) ?_
  refine dstep_seqE (dstep_liftE applyHistorySnap_tr applyHistorySnap_lastSync) ?_
  refine dstep_seqE (dstep_liftE applyFoodHistorySnap_tr applyFoodHistorySnap_lastSync) ?_
  refine dstep_seqE (dstep_liftE applyFavoritesSnap_tr applyFavoritesSnap_lastSync) ?_
  refine dstep_seqE (dstep_liftE applyRecentSnap_tr applyRecentSnap_lastSync) ?_
  refine dstep_seqE (dstep_liftE applyWeightSnap_tr applyWeightSnap_lastSync) ?_
  refine dstep_seqE (dstep_liftE applyStreakSnap_tr applyStreakSnap_lastSync) ?_
  refine dstep_seqE (dstep_stepR (roGetDoc _) F id) ?_
  refine dstep_seqE (dstep_recipesHydrate F now) ?_
  exact dstep_seqE (dstep_stepR (roGetDoc _) F id) (dstep_templatesHydrate F now)

/-! ## Lemmas: fault-free runs in closed form -/

theorem saveRecipesLoop_noFaults (items : List Item) : ∀ (gen : Nat) (s : St),
    saveRecipesLoop noFaults gen items s =
      .ok ⟨{ s.loc with recipes := mergeMany s.loc.recipes gen items }, s.rem,
           s.tr ++ items.map (fun _ => Ev.upsertItem .recipes),
           s.k + items.length⟩ := by
  induction items with
  | nil =>
    intro gen s
    simp [saveRecipesLoop, mergeMany]
  | cons it rest ih =>
    intro gen s
    simp only [saveRecipesLoop, seqE, stepL_noFaults]
    rw [ih]
    simp [mergeMany, Nat.add_comm, Nat.add_assoc, Nat.add_left_comm]

theorem saveTemplatesLoop_noFaults (items : List Item) : ∀ (gen : Nat) (s : St),
    saveTemplatesLoop noFaults gen items s =
      .ok ⟨{ s.loc with templates := mergeMany s.loc.templates gen items }, s.rem,
           s.tr ++ items.map (fun _ => Ev.upsertItem .templates),
           s.k + items.length⟩ := by
  induction items with
  | nil =>
    intro gen s
    simp [saveTemplatesLoop, mergeMany]
  | cons it rest ih =>
    intro gen s
    simp only [saveTemplatesLoop, seqE, stepL_noFaults]
    rw [ih]
    simp [mergeMany, Nat.add_comm, Nat.add_assoc, Nat.add_left_comm]

/-- A fault-free bulk upload in closed form: it resolves, writes the
batch plus the recipes/templates documents, saves the last-synced
timestamp and emits the completion notification. -/
theorem upload_noFaults (u : Nat) (now : Time) (today : Day) (s : St) :
    uploadLocalToCloud noFaults true (some u) now today s =
      .ok ⟨{ s.loc with lastSync := some now },
           uploadedRemote s.loc s.rem now today,
           s.tr ++ [.batchCommit, .saveLastSync now, .notifySyncComplete now,
                    .readColl .recipes, .setDoc .recipes,
                    .readColl .templates, .setDoc .templates],
           s.k + 5⟩ := by
  simp [uploadLocalToCloud, recipeTemplateStep, seqE, stepR, stepL, noFaults,
        comb, finishSync, syncRecipesToCloud, syncTemplatesToCloud,
        uploadedRemote]

theorem getD_foodLog_days (r : Remote) :
    ((r.foodLog).getD ⟨[], 0⟩).days = remFoodDays r := by
  cases h : r.foodLog <;> simp [remFoodDays, h]

/-- A fault-free `foodLog` push in closed form: read-modify-write of the
date-keyed document. -/
theorem push_foodLog_noFaults (u : Nat) (e x : Option (List Val))
    (w : Option Nat) (now : Time) (today : Day) (s : St) :
    syncToCloud noFaults true (some u) "foodLog" (.log e x w) now today s =
      .ok ⟨s.loc,
           { s.rem with foodLog := some ⟨alSet (remFoodDays s.rem) today
               ⟨e.getD [], x.getD [], w.getD 0⟩, now⟩ },
           s.tr ++ [.getDoc .foodLog, .setDoc .foodLog], s.k + 2⟩ := by
  have h : s.tr ++ [Ev.getDoc DocId.foodLog, Ev.setDoc DocId.foodLog] =
      (s.tr ++ [Ev.getDoc DocId.foodLog]) ++ [Ev.setDoc DocId.foodLog] := by simp
  rw [← getD_foodLog_days, h]
  rfl

/-! ## Claims -/

/-- C2: a single-record push of type `foodLog` is read-modify-write: the
existing remote document is fetched, only today's date key is replaced
with the payload's entries/exercise/water, and the whole document is
rewritten, so every other date key is preserved; in particular a push on
day `d1` followed by a push on day `d2 ≠ d1` leaves `d1`'s entry intact. -/
theorem C2_foodLog_read_modify_write (u : Nat) (loc : Loc) (rem : Remote)
    (e1 x1 : Option (List Val)) (w1 : Option Nat) (t1 : Time) (d1 : Day)
    (e2 x2 : Option (List Val)) (w2 : Option Nat) (t2 : Time) (d2 : Day)
    (hne : d1 ≠ d2) :
    (∀ (s : St) (d : Day), d ≠ d2 →
      alGet (remFoodDays ((syncToCloud noFaults true (some u) "foodLog"
          (.log e2 x2 w2) t2 d2 s).st).rem) d = alGet (remFoodDays s.rem) d) ∧
    (∀ s : St,
      alGet (remFoodDays ((syncToCloud noFaults true (some u) "foodLog"
          (.log e2 x2 w2) t2 d2 s).st).rem) d2 =
        some ⟨e2.getD [], x2.getD [], w2.getD 0⟩) ∧
    alGet (remFoodDays ((syncToCloud noFaults true (some u) "foodLog"
        (.log e2 x2 w2) t2 d2
        ((syncToCloud noFaults true (some u) "foodLog" (.log e1 x1 w1) t1 d1
          (St.init loc rem)).st)).st).rem) d1 =
      some ⟨e1.getD [], x1.getD [], w1.getD 0⟩ := by
  refine ⟨?_, ?_, ?_⟩
  · intro s d hd
    rw [push_foodLog_noFaults]
    simp only [Outcome.st]
    show alGet (remFoodDays _) d = _
    simp only [remFoodDays]
    rw [alGet_alSet_ne _ _ _ _ hd]
  · intro s
    rw [push_foodLog_noFaults]
    simp only [Outcome.st]
    show alGet (remFoodDays _) d2 = _
    simp only [remFoodDays]
    rw [alGet_alSet_self]
  · rw [push_foodLog_noFaults, push_foodLog_noFaults]
    simp only [Outcome.st]
    show alGet (remFoodDays _) d1 = _
    simp only [remFoodDays]
    rw [alGet_alSet_ne _ _ _ _ hne, alGet_alSet_self]

/-- Witness for C2 at a concrete input: day 1's entry survives a later
push on day 2. -/
theorem C2_foodLog_read_modify_write_witness :
    alGet (remFoodDays ((syncToCloud noFaults true (some 1) "foodLog"
        (.log (some [2]) none none) 200 2
        ((syncToCloud noFaults true (some 1) "foodLog"
          (.log (some [1]) (some []) (some 5)) 100 1
          (St.init sampleLoc emptyRemote)).st)).st).rem) 1 =
      some ⟨[1], [], 5⟩ :=
  (C2_foodLog_read_modify_write 1 sampleLoc emptyRemote
    (some [1]) (some []) (some 5) 100 1
    (some [2]) none none 200 2 (by decide)).2.2

theorem attemptDelete_tr (F : Oracle) (d : DocId) (s : St) :
    (attemptDelete F d s).tr = s.tr ++ [.deleteDoc d] := by
  by_cases h : F s.k <;> simp [attemptDelete, stepR, comb, h]

/-- C6: for every user id with the backend configured, `deleteUserCloudData`
issues a delete for each of the ten document types in catalog order,
attempts each deletion independently whatever the fault pattern (so even
if the first nine deletions fail the tenth is still attempted), waits for
all attempts to settle, and never rejects. -/
theorem C6_erasure_attempts_all_ten (loc : Loc) (rem : Remote) (u : Nat)
    (F : Oracle) :
    (deleteUserCloudData F true (some u) (St.init loc rem)).isOk = true ∧
    ((deleteUserCloudData F true (some u) (St.init loc rem)).st).tr =
      USER_DATA_DOCS.map Ev.deleteDoc := by
  constructor
  · rfl
  · simp [deleteUserCloudData, USER_DATA_DOCS, Outcome.st, List.foldl,
      attemptDelete_tr, St.init]

theorem filter_all_self {α : Type} (l : List α) (p : α → Bool) :
    (l.filter p).all p = true :=
  List.all_eq_true.mpr (fun _ ha => (List.mem_filter.mp ha).2)

/-- C9: `syncTemplatesToCloud` uploads exactly the templates whose
`isPrebuilt` flag is falsy — prebuilt templates never appear in the items
of the remote templates document — and a missing template list is
uploaded as an empty items list. -/
theorem C9_templates_filter_prebuilt (loc : Loc) (rem : Remote) (u : Nat)
    (now : Time) (tl : List Item) :
    ((syncTemplatesToCloud noFaults true (some u) (some tl) now
        (St.init loc rem)).rem.templates =
      some ⟨tl.filter (fun t => !t.isPrebuilt), now⟩) ∧
    ((tl.filter (fun t => !t.isPrebuilt)).all (fun t => !t.isPrebuilt) = true) ∧
    ((syncTemplatesToCloud noFaults true (some u) none now
        (St.init loc rem)).rem.templates = some ⟨[], now⟩) := by
  refine ⟨?_, filter_all_self tl _, ?_⟩ <;>
    simp [syncTemplatesToCloud, stepR_noFaults, comb, St.init]

/-- `syncFromCloud` resolves under every configuration, fault pattern and
state: its top-level catch absorbs everything. -/
theorem syncFromCloud_isOk (F : Oracle) (cfg : Bool) (now : Time)
    (today : Day) (s : St) : (syncFromCloud F cfg now today s).isOk = true := by
  rw [syncFromCloud]
  by_cases hc : cfg
  · simp only [hc]
    cases h : downBody F now today s <;> simp [Outcome.isOk]
  · simp [hc, Outcome.isOk]

/-- C5: for every state of both stores and every behaviour of the remote
store and the local collections (any operation rejecting at any point),
bulk download never rejects to its caller; and when its body fails
anywhere, the last-synced timestamp is untouched and neither the
timestamp write nor the sync-complete notification appears in the
trace — they are produced only by a pass that completes without error. -/
theorem C5_download_never_throws (loc : Loc) (rem : Remote) (now : Time)
    (today : Day) (F : Oracle) :
    (syncFromCloud F true now today (St.init loc rem)).isOk = true ∧
    (∀ s', downCore F now today (St.init loc rem) = .error s' →
      ((syncFromCloud F true now today (St.init loc rem)).st).loc.lastSync =
        loc.lastSync ∧
      (∀ t, Ev.saveLastSync t ∉
        ((syncFromCloud F true now today (St.init loc rem)).st).tr) ∧
      (∀ t, Ev.notifySyncComplete t ∉
        ((syncFromCloud F true now today (St.init loc rem)).st).tr)) := by
  refine ⟨syncFromCloud_isOk F true now today _, ?_⟩
  intro s' herr
  obtain ⟨ext, htr, hro, hls⟩ := dstep_downCore F now today (St.init loc rem)
  rw [herr] at htr hls
  simp only [comb] at htr hls
  have hout : syncFromCloud F true now today (St.init loc rem) = .ok s' := by
    simp [syncFromCloud, downBody, herr]
  rw [hout]
  simp only [Outcome.st]
  have htr' : s'.tr = ext := by simpa [St.init] using htr
  refine ⟨by simpa [St.init] using hls, ?_, ?_⟩ <;> intro t hmem <;> rw [htr'] at hmem
  · have := hro _ hmem
    simp [readOnlyEv] at this
  · have := hro _ hmem
    simp [readOnlyEv] at this

/-- Witness for C5: with every operation rejecting, the download still
resolves and the local last-synced slot is untouched. -/
theorem C5_download_never_throws_witness :
    (syncFromCloud (fun _ => true) true 5 3
      (St.init sampleLoc emptyRemote)).isOk = true ∧
    ((syncFromCloud (fun _ => true) true 5 3
      (St.init sampleLoc emptyRemote)).st).loc.lastSync = sampleLoc.lastSync :=
  ⟨(C5_download_never_throws sampleLoc emptyRemote 5 3 (fun _ => true)).1,
   ((C5_download_never_throws sampleLoc emptyRemote 5 3 (fun _ => true)).2
     ⟨sampleLoc, emptyRemote, [Ev.getDoc .profile], 1⟩ rfl).1⟩

theorem lstep_seqE {f g : St → Except St St} (hf : LStep f) (hg : LStep g) :
    LStep (seqE f g) := by
  intro s
  obtain ⟨hl1, e1, h1⟩ := hf s
  cases hfs : f s with
  | error s' =>
    rw [hfs] at hl1 h1
    simp only [comb] at hl1 h1
    exact ⟨by simp [seqE, hfs, comb, hl1], e1, by simp [seqE, hfs, comb, h1]⟩
  | ok s' =>
    obtain ⟨hl2, e2, h2⟩ := hg s'
    rw [hfs] at hl1 h1
    simp only [comb] at hl1 h1
    refine ⟨?_, e1 ++ e2, ?_⟩
    · simp only [seqE, hfs]
      rw [hl2, hl1]
    · simp only [seqE, hfs]
      rw [h2, h1, List.append_assoc]

theorem lstep_stepR (F : Oracle) (e : Ev) (f : Remote → Remote) :
    LStep (stepR F e f) := by
  intro s
  constructor
  · by_cases h : F s.k <;> simp [stepR, comb, h]
  · exact ⟨[e], by by_cases h : F s.k <;> simp [stepR, comb, h]⟩

theorem lstep_ok_of (f : St → St) (hl : ∀ s, (f s).loc = s.loc)
    (ht : ∀ s, ∃ ext, (f s).tr = s.tr ++ ext) : LStep (fun s => .ok (f s)) :=
  fun s => ⟨hl s, ht s⟩

theorem syncRecipesToCloud_loc (F : Oracle) (cfg : Bool) (uid : Option Nat)
    (rs : List Item) (now : Time) (s : St) :
    (syncRecipesToCloud F cfg uid rs now s).loc = s.loc := by
  rw [syncRecipesToCloud]
  split
  · rfl
  · by_cases h : F s.k <;> simp [stepR, comb, h]

theorem syncRecipesToCloud_tr (F : Oracle) (cfg : Bool) (uid : Option Nat)
    (rs : List Item) (now : Time) (s : St) :
    ∃ ext, (syncRecipesToCloud F cfg uid rs now s).tr = s.tr ++ ext := by
  rw [syncRecipesToCloud]
  split
  · exact ⟨[], by simp⟩
  · exact ⟨[Ev.setDoc .recipes], by by_cases h : F s.k <;> simp [stepR, comb, h]⟩

theorem syncTemplatesToCloud_loc (F : Oracle) (cfg : Bool) (uid : Option Nat)
    (ts : Option (List Item)) (now : Time) (s : St) :
    (syncTemplatesToCloud F cfg uid ts now s).loc = s.loc := by
  rw [syncTemplatesToCloud]
  split
  · rfl
  · by_cases h : F s.k <;> simp [stepR, comb, h]

theorem syncTemplatesToCloud_tr (F : Oracle) (cfg : Bool) (uid : Option Nat)
    (ts : Option (List Item)) (now : Time) (s : St) :
    ∃ ext, (syncTemplatesToCloud F cfg uid ts now s).tr = s.tr ++ ext := by
  rw [syncTemplatesToCloud]
  split
  · exact ⟨[], by simp⟩
  · exact ⟨[Ev.setDoc .templates], by by_cases h : F s.k <;> simp [stepR, comb, h]⟩

/-- The after-commit best-effort step leaves the local store untouched and
only appends events, whatever fails inside it. -/
theorem lstep_recipeTemplateStep (F : Oracle) (cfg : Bool) (uid : Option Nat)
    (now : Time) : LStep (recipeTemplateStep F cfg uid now) := by
  unfold recipeTemplateStep
  refine lstep_seqE (lstep_stepR F _ id) ?_
  refine lstep_seqE (lstep_ok_of _
    (fun s => syncRecipesToCloud_loc F cfg uid s.loc.recipes now s)
    (fun s => syncRecipesToCloud_tr F cfg uid s.loc.recipes now s)) ?_
  refine lstep_seqE (lstep_stepR F _ id) ?_
  exact lstep_ok_of _
    (fun s => syncTemplatesToCloud_loc F cfg uid (some s.loc.templates) now s)
    (fun s => syncTemplatesToCloud_tr F cfg uid (some s.loc.templates) now s)

/-- C4: when the main batch commit succeeds, `uploadLocalToCloud` saves
the last-synced timestamp and emits the sync-complete notification
immediately after the commit and before the recipes/templates step's
events, it resolves whatever fails in that best-effort step, and the
timestamp stays saved; when the batch commit itself fails, the rejection
propagates to the caller and neither the timestamp nor the notification
is produced. -/
theorem C4_upload_order_and_errors (loc : Loc) (rem : Remote) (u : Nat)
    (now : Time) (today : Day) (F : Oracle) :
    (F 0 = false →
      (uploadLocalToCloud F true (some u) now today (St.init loc rem)).isOk = true ∧
      ((uploadLocalToCloud F true (some u) now today (St.init loc rem)).st).loc.lastSync
        = some now ∧
      ∃ ext, ((uploadLocalToCloud F true (some u) now today (St.init loc rem)).st).tr =
        [.batchCommit, .saveLastSync now, .notifySyncComplete now] ++ ext) ∧
    (F 0 = true →
      (uploadLocalToCloud F true (some u) now today (St.init loc rem)).isThrown = true ∧
      ((uploadLocalToCloud F true (some u) now today (St.init loc rem)).st).loc.lastSync
        = loc.lastSync ∧
      ((uploadLocalToCloud F true (some u) now today (St.init loc rem)).st).tr =
        [.batchCommit]) := by
  constructor
  · intro hF
    have hup : uploadLocalToCloud F true (some u) now today (St.init loc rem) =
        .ok (comb (recipeTemplateStep F true (some u) now
          ⟨{ loc with lastSync := some now }, applyBatch loc now today rem,
           [.batchCommit, .saveLastSync now, .notifySyncComplete now], 1⟩)) := by
      cases hrts : recipeTemplateStep F true (some u) now
          ⟨{ loc with lastSync := some now }, applyBatch loc now today rem,
           [.batchCommit, .saveLastSync now, .notifySyncComplete now], 1⟩ with
      | ok s3 => simp [uploadLocalToCloud, stepR, hF, St.init, finishSync, hrts, comb]
      | error s3 => simp [uploadLocalToCloud, stepR, hF, St.init, finishSync, hrts, comb]
    obtain ⟨hl, ext, htr⟩ := lstep_recipeTemplateStep F true (some u) now
      ⟨{ loc with lastSync := some now }, applyBatch loc now today rem,
       [.batchCommit, .saveLastSync now, .notifySyncComplete now], 1⟩
    rw [hup]
    refine ⟨rfl, ?_, ext, ?_⟩
    · simp only [Outcome.st]
      rw [hl]
    · simp only [Outcome.st]
      rw [htr]
  · intro hF
    refine ⟨?_, ?_, ?_⟩ <;>
      simp [uploadLocalToCloud, stepR, hF, St.init, Outcome.isThrown, Outcome.st]

/-- Witness for C4: both branches at concrete inputs — a fault-free run
resolves with the timestamp saved; a run whose commit fails rejects. -/
theorem C4_upload_order_and_errors_witness :
    (uploadLocalToCloud noFaults true (some 1) 7 4
      (St.init sampleLoc emptyRemote)).isOk = true ∧
    ((uploadLocalToCloud noFaults true (some 1) 7 4
      (St.init sampleLoc emptyRemote)).st).loc.lastSync = some 7 ∧
    (uploadLocalToCloud (fun _ => true) true (some 1) 7 4
      (St.init sampleLoc emptyRemote)).isThrown = true :=
  ⟨((C4_upload_order_and_errors sampleLoc emptyRemote 1 7 4 noFaults).1 rfl).1,
   ((C4_upload_order_and_errors sampleLoc emptyRemote 1 7 4 noFaults).1 rfl).2.1,
   ((C4_upload_order_and_errors sampleLoc emptyRemote 1 7 4 (fun _ => true)).2 rfl).1⟩

/-- C10: `syncOnSignIn` has no catch of its own — a rejection of the
initial profile existence check propagates to its caller, as does a
rejection of the bulk upload it triggers on the migration path; but on
the download path every failure is absorbed, so the entry point resolves
whenever the existence check succeeds and a remote profile exists. -/
theorem C10_signin_error_propagation (loc : Loc) (rem : Remote) (u : Nat)
    (now : Time) (today : Day) (F : Oracle) :
    (F 0 = true →
      (syncOnSignIn F true (some u) now today (St.init loc rem)).isThrown = true) ∧
    (rem.profile = none →
      (loc.userProfile.isSome || !loc.foodLog.isEmpty) = true →
      F 0 = false → F 1 = true →
      (syncOnSignIn F true (some u) now today (St.init loc rem)).isThrown = true) ∧
    (rem.profile.isSome = true → F 0 = false →
      (syncOnSignIn F true (some u) now today (St.init loc rem)).isOk = true) := by
  refine ⟨?_, ?_, ?_⟩
  · intro hF
    simp [syncOnSignIn, stepR, hF, St.init, Outcome.isThrown]
  · intro hprof hloc hF0 hF1
    simp [syncOnSignIn, stepR, hF0, hF1, St.init, hprof, hloc,
      uploadLocalToCloud, Outcome.isThrown]
  · intro hprof hF0
    simp only [syncOnSignIn, stepR, hF0, St.init]
    simp [hprof, syncFromCloud_isOk]

/-- Witness for C10: the existence check rejecting surfaces; the
migration upload's commit rejecting surfaces; with a remote profile
present the sign-in resolves even though every later operation fails. -/
theorem C10_signin_error_propagation_witness :
    (syncOnSignIn (fun _ => true) true (some 1) 9 2
      (St.init sampleLoc emptyRemote)).isThrown = true ∧
    (syncOnSignIn (fun k => k == 1) true (some 1) 9 2
      (St.init sampleLoc emptyRemote)).isThrown = true ∧
    (syncOnSignIn (fun k => k != 0) true (some 1) 9 2
      (St.init sampleLoc (uploadedRemote sampleLoc emptyRemote 5 3))).isOk = true :=
  ⟨(C10_signin_error_propagation sampleLoc emptyRemote 1 9 2 (fun _ => true)).1 rfl,
   (C10_signin_error_propagation sampleLoc emptyRemote 1 9 2 (fun k => k == 1)).2.1
     rfl (by decide) rfl rfl,
   (C10_signin_error_propagation sampleLoc (uploadedRemote sampleLoc emptyRemote 5 3)
     1 9 2 (fun k => k != 0)).2.2 (by decide) rfl⟩

/-- C8: a single-record push whose record-type tag is not one of the
eight handled types performs no remote read or write and resolves without
error (the state, trace included, is returned unchanged); for every
handled type and matching payload, a transport failure during the push —
the first operation for every type, and also the second (the rewrite
after the read) for the read-modify-write `foodLog` type — makes
`syncToCloud` reject to its caller. -/
theorem C8_push_unknown_noop_and_failure (loc : Loc) (rem : Remote) (u : Nat)
    (now : Time) (today : Day) (tag : String) (payload : Payload) (F : Oracle) :
    (tag ∉ handledTags →
      syncToCloud F true (some u) tag payload now today (St.init loc rem) =
        .ok (St.init loc rem)) ∧
    (handledReq tag payload = true → F 0 = true →
      (syncToCloud F true (some u) tag payload now today
        (St.init loc rem)).isThrown = true) ∧
    (tag = "foodLog" → handledReq tag payload = true → F 0 = false → F 1 = true →
      (syncToCloud F true (some u) tag payload now today
        (St.init loc rem)).isThrown = true) := by
  refine ⟨?_, ?_, ?_⟩
  · intro htag
    simp only [handledTags, List.mem_cons, List.mem_singleton, not_or] at htag
    obtain ⟨n1, n2, n3, n4, n5, n6, n7, n8, _⟩ := htag
    simp [syncToCloud, pushInner, n1, n2, n3, n4, n5, n6, n7, n8]
  · intro hreq hF
    cases payload with
    | profile p =>
      by_cases h : tag = "profile"
      · subst h
        simp [syncToCloud, pushInner, stepR, St.init, Outcome.isThrown, hF]
      · simp [handledReq, h] at hreq
    | log e x w =>
      by_cases h : tag = "foodLog"
      · subst h
        simp [syncToCloud, pushInner, seqE, stepR, St.init, Outcome.isThrown, hF]
      · simp [handledReq, h] at hreq
    | obj m =>
      by_cases h1 : tag = "history"
      · subst h1
        simp [syncToCloud, pushInner, stepR, St.init, Outcome.isThrown, hF]
      · by_cases h2 : tag = "foodHistory"
        · subst h2
          simp [syncToCloud, pushInner, stepR, St.init, Outcome.isThrown, hF]
        · by_cases h3 : tag = "streakData"
          · subst h3
            simp [syncToCloud, pushInner, stepR, St.init, Outcome.isThrown, hF]
          · simp [handledReq, h1, h2, h3] at hreq
    | list xs =>
      by_cases h1 : tag = "favorites"
      · subst h1
        simp [syncToCloud, pushInner, stepR, St.init, Outcome.isThrown, hF]
      · by_cases h2 : tag = "recentFoods"
        · subst h2
          simp [syncToCloud, pushInner, stepR, St.init, Outcome.isThrown, hF]
        · by_cases h3 : tag = "weightLog"
          · subst h3
            simp [syncToCloud, pushInner, stepR, St.init, Outcome.isThrown, hF]
          · simp [handledReq, h1, h2, h3] at hreq
  · intro htag hreq hF0 hF1
    subst htag
    cases payload with
    | log e x w =>
      simp [syncToCloud, pushInner, seqE, stepR, St.init, Outcome.isThrown,
        hF0, hF1]
    | profile p => simp [handledReq] at hreq
    | obj m => simp [handledReq] at hreq
    | list xs => simp [handledReq] at hreq

/-- Witness for C8: a push tagged `bogus` is a strict no-op; a `profile`
push whose write rejects surfaces the rejection; a `foodLog` push whose
rewrite (after a successful read) rejects surfaces it too. -/
theorem C8_push_unknown_noop_and_failure_witness :
    (syncToCloud noFaults true (some 1) "bogus" (.list [1]) 6 2
      (St.init sampleLoc emptyRemote) = .ok (St.init sampleLoc emptyRemote)) ∧
    (syncToCloud (fun _ => true) true (some 1) "profile"
      (.profile ⟨some 1, none, none, none, none, none, none⟩) 6 2
      (St.init sampleLoc emptyRemote)).isThrown = true ∧
    (syncToCloud (fun k => k == 1) true (some 1) "foodLog"
      (.log (some [1]) none none) 6 2
      (St.init sampleLoc emptyRemote)).isThrown = true :=
  ⟨(C8_push_unknown_noop_and_failure sampleLoc emptyRemote 1 6 2 "bogus"
      (.list [1]) noFaults).1 (by decide),
   (C8_push_unknown_noop_and_failure sampleLoc emptyRemote 1 6 2 "profile"
      (.profile ⟨some 1, none, none, none, none, none, none⟩) (fun _ => true)).2.1
      (by decide) rfl,
   (C8_push_unknown_noop_and_failure sampleLoc emptyRemote 1 6 2 "foodLog"
      (.log (some [1]) none none) (fun k => k == 1)).2.2 rfl (by decide) rfl rfl⟩

theorem readOnly_not_write {e : Ev} (h : readOnlyEv e = true) :
    isWrite e = false := by
  cases e <;> simp_all [readOnlyEv, isWrite]

/-- C1: on a sign-in event with an authenticated user and the backend
configured, `syncOnSignIn` performs exactly one of three outcomes: when
the remote profile document exists it delegates to exactly one bulk
download (whose whole trace contains no remote write, so zero uploads),
regardless of local state; when it does not exist and local data is
non-trivial it delegates to exactly one bulk upload; when it does not
exist and local data is trivial it stops after the existence check, with
no further remote read or write.  With no user or an unconfigured backend
it returns immediately with no remote access at all. -/
theorem C1_signin_reconciliation (loc : Loc) (rem : Remote) (u : Nat)
    (now : Time) (today : Day) :
    (∀ F : Oracle,
      syncOnSignIn F true none now today (St.init loc rem) =
        .ok (St.init loc rem)) ∧
    (∀ (F : Oracle) (user : Option Nat),
      syncOnSignIn F false user now today (St.init loc rem) =
        .ok (St.init loc rem)) ∧
    (rem.profile.isSome = true →
      syncOnSignIn noFaults true (some u) now today (St.init loc rem) =
        syncFromCloud noFaults true now today ⟨loc, rem, [Ev.getDoc .profile], 1⟩ ∧
      ((syncOnSignIn noFaults true (some u) now today (St.init loc rem)).st).tr.all
        (fun e => !isWrite e) = true) ∧
    (rem.profile = none →
      (loc.userProfile.isSome || !loc.foodLog.isEmpty) = true →
      syncOnSignIn noFaults true (some u) now today (St.init loc rem) =
        uploadLocalToCloud noFaults true (some u) now today
          ⟨loc, rem, [Ev.getDoc .profile], 1⟩ ∧
      ((syncOnSignIn noFaults true (some u) now today (St.init loc rem)).st).tr =
        [Ev.getDoc .profile, .batchCommit, .saveLastSync now,
         .notifySyncComplete now, .readColl .recipes, .setDoc .recipes,
         .readColl .templates, .setDoc .templates]) ∧
    (rem.profile = none → loc.userProfile = none → loc.foodLog = [] →
      syncOnSignIn noFaults true (some u) now today (St.init loc rem) =
        .ok ⟨loc, rem, [Ev.getDoc .profile], 1⟩) := by
  refine ⟨?_, ?_, ?_, ?_, ?_⟩
  · intro F
    rfl
  · intro F user
    simp [syncOnSignIn]
  · intro hprof
    have heq : syncOnSignIn noFaults true (some u) now today (St.init loc rem) =
        syncFromCloud noFaults true now today ⟨loc, rem, [Ev.getDoc .profile], 1⟩ := by
      simp [syncOnSignIn, stepR_noFaults, St.init, hprof]
    refine ⟨heq, ?_⟩
    rw [heq]
    obtain ⟨ext, htr, hro, _⟩ :=
      dstep_downCore noFaults now today ⟨loc, rem, [Ev.getDoc .profile], 1⟩
    cases hdc : downCore noFaults now today ⟨loc, rem, [Ev.getDoc .profile], 1⟩ with
    | ok s2 =>
      rw [hdc] at htr
      simp only [comb] at htr
      have hout : syncFromCloud noFaults true now today
          ⟨loc, rem, [Ev.getDoc .profile], 1⟩ = .ok (finishSync now s2) := by
        simp [syncFromCloud, downBody, hdc]
      rw [hout]
      simp only [Outcome.st, finishSync]
      rw [htr, List.all_eq_true]
      intro e he
      rcases List.mem_append.mp he with he1 | he2
      · rcases List.mem_append.mp he1 with he3 | he4
        · simp only [List.mem_singleton] at he3
          subst he3
          rfl
        · simp [readOnly_not_write (hro e he4)]
      · rcases List.mem_cons.mp he2 with he5 | he6
        · subst he5
          rfl
        · simp only [List.mem_singleton] at he6
          subst he6
          rfl
    | error s2 =>
      rw [hdc] at htr
      simp only [comb] at htr
      have hout : syncFromCloud noFaults true now today
          ⟨loc, rem, [Ev.getDoc .profile], 1⟩ = .ok s2 := by
        simp [syncFromCloud, downBody, hdc]
      rw [hout]
      simp only [Outcome.st]
      rw [htr, List.all_eq_true]
      intro e he
      rcases List.mem_append.mp he with he3 | he4
      · simp only [List.mem_singleton] at he3
        subst he3
        rfl
      · simp [readOnly_not_write (hro e he4)]
  · intro hprof hloc
    have heq : syncOnSignIn noFaults true (some u) now today (St.init loc rem) =
        uploadLocalToCloud noFaults true (some u) now today
          ⟨loc, rem, [Ev.getDoc .profile], 1⟩ := by
      simp [syncOnSignIn, stepR_noFaults, St.init, hprof, hloc]
    refine ⟨heq, ?_⟩
    rw [heq, upload_noFaults]
    simp [Outcome.st]
  · intro hprof hup hfood
    simp [syncOnSignIn, stepR_noFaults, St.init, hprof, hup, hfood]

/-- Witness for C1: the three decision branches at concrete inputs — an
existing remote profile yields a write-free download pass; an absent
profile with non-trivial local data yields exactly the one upload trace;
an absent profile with trivial local data stops after the check. -/
theorem C1_signin_reconciliation_witness :
    ((syncOnSignIn noFaults true (some 1) 9 2
      (St.init sampleLoc (uploadedRemote sampleLoc emptyRemote 5 3))).st).tr.all
      (fun e => !isWrite e) = true ∧
    ((syncOnSignIn noFaults true (some 1) 9 2
      (St.init sampleLoc emptyRemote)).st).tr =
      [Ev.getDoc .profile, .batchCommit, .saveLastSync 9, .notifySyncComplete 9,
       .readColl .recipes, .setDoc .recipes, .readColl .templates,
       .setDoc .templates] ∧
    syncOnSignIn noFaults true (some 1) 9 2 (St.init trivialLoc emptyRemote) =
      .ok ⟨trivialLoc, emptyRemote, [Ev.getDoc .profile], 1⟩ :=
  ⟨((C1_signin_reconciliation sampleLoc (uploadedRemote sampleLoc emptyRemote 5 3)
      1 9 2).2.2.1 (by decide)).2,
   ((C1_signin_reconciliation sampleLoc emptyRemote 1 9 2).2.2.2.1 rfl
      (by decide)).2,
   (C1_signin_reconciliation trivialLoc emptyRemote 1 9 2).2.2.2.2 rfl
      (by decide) (by decide)⟩

/-- C7: every remote document write performed by the sync engine — each
of the eight documents in the bulk-upload batch, every branch of the
single-record push, and the recipes/templates writes — replaces that
record type's entire document with a freshly constructed one whose
`updatedAt` field is the wall-clock time of the write. -/
theorem C7_every_write_sets_updatedAt (loc : Loc) (rem : Remote) (u : Nat)
    (now : Time) (today : Day) (p : ProfilePayload)
    (e x : Option (List Val)) (w : Option Nat) (m : Obj) (xs : List Val)
    (rs : List Item) (ts : Option (List Item)) :
    (((uploadLocalToCloud noFaults true (some u) now today (St.init loc rem)).st).rem =
        uploadedRemote loc rem now today ∧
      (uploadedRemote loc rem now today).profile = some (profileDocOf loc now) ∧
      (uploadedRemote loc rem now today).foodLog = some (foodLogDocOf loc now today) ∧
      (uploadedRemote loc rem now today).history = some (objDocOf loc.weeklyHistory now) ∧
      (uploadedRemote loc rem now today).foodHistory = some (objDocOf loc.foodHistory now) ∧
      (uploadedRemote loc rem now today).favorites = some ⟨loc.favoriteFoods, now⟩ ∧
      (uploadedRemote loc rem now today).recentFoods = some ⟨loc.recentFoods, now⟩ ∧
      (uploadedRemote loc rem now today).weightLog = some ⟨loc.weightLog, now⟩ ∧
      (uploadedRemote loc rem now today).streakData = some (objDocOf loc.streakData now) ∧
      (uploadedRemote loc rem now today).recipes = some ⟨loc.recipes, now⟩ ∧
      (uploadedRemote loc rem now today).templates =
        some ⟨loc.templates.filter (fun t => !t.isPrebuilt), now⟩) ∧
    ((profileDocOf loc now).updatedAt = now ∧
      (foodLogDocOf loc now today).updatedAt = now ∧
      alGet (objDocOf m now) "updatedAt" = some now) ∧
    (((syncToCloud noFaults true (some u) "profile" (.profile p) now today
        (St.init loc rem)).st).rem.profile = some (ProfileDoc.ofPayload p now) ∧
      (ProfileDoc.ofPayload p now).updatedAt = now) ∧
    (((syncToCloud noFaults true (some u) "foodLog" (.log e x w) now today
        (St.init loc rem)).st).rem.foodLog =
      some ⟨alSet (remFoodDays rem) today ⟨e.getD [], x.getD [], w.getD 0⟩, now⟩) ∧
    (((syncToCloud noFaults true (some u) "history" (.obj m) now today
        (St.init loc rem)).st).rem.history = some (objDocOf m now)) ∧
    (((syncToCloud noFaults true (some u) "foodHistory" (.obj m) now today
        (St.init loc rem)).st).rem.foodHistory = some (objDocOf m now)) ∧
    (((syncToCloud noFaults true (some u) "favorites" (.list xs) now today
        (St.init loc rem)).st).rem.favorites = some ⟨xs, now⟩) ∧
    (((syncToCloud noFaults true (some u) "recentFoods" (.list xs) now today
        (St.init loc rem)).st).rem.recentFoods = some ⟨xs, now⟩) ∧
    (((syncToCloud noFaults true (some u) "weightLog" (.list xs) now today
        (St.init loc rem)).st).rem.weightLog = some ⟨xs, now⟩) ∧
    (((syncToCloud noFaults true (some u) "streakData" (.obj m) now today
        (St.init loc rem)).st).rem.streakData = some (objDocOf m now)) ∧
    ((syncRecipesToCloud noFaults true (some u) rs now (St.init loc rem)).rem.recipes =
      some ⟨rs, now⟩) ∧
    ((syncTemplatesToCloud noFaults true (some u) ts now (St.init loc rem)).rem.templates =
      some ⟨(ts.getD []).filter (fun t => !t.isPrebuilt), now⟩) := by
  refine ⟨?_, ?_, ?_, ?_, ?_, ?_, ?_, ?_, ?_, ?_, ?_, ?_⟩
  · rw [upload_noFaults]
    exact ⟨rfl, rfl, rfl, rfl, rfl, rfl, rfl, rfl, rfl, rfl, rfl⟩
  · exact ⟨rfl, rfl, alGet_alSet_self m "updatedAt" now⟩
  · exact ⟨by simp [syncToCloud, pushInner, stepR_noFaults, St.init, Outcome.st], rfl⟩
  · rw [push_foodLog_noFaults]
    rfl
  · simp [syncToCloud, pushInner, stepR_noFaults, St.init, Outcome.st]
  · simp [syncToCloud, pushInner, stepR_noFaults, St.init, Outcome.st]
  · simp [syncToCloud, pushInner, stepR_noFaults, St.init, Outcome.st]
  · simp [syncToCloud, pushInner, stepR_noFaults, St.init, Outcome.st]
  · simp [syncToCloud, pushInner, stepR_noFaults, St.init, Outcome.st]
  · simp [syncToCloud, pushInner, stepR_noFaults, St.init, Outcome.st]
  · simp [syncRecipesToCloud, stepR_noFaults, comb, St.init]
  · simp [syncTemplatesToCloud, stepR_noFaults, comb, St.init]

/-- C3 (amended): bulk upload followed immediately by bulk download for
the same user, with no interleaved remote writes and no day change,
restores every Local Store slot to its pre-upload value, with these
exceptions: the recipes and templates collections are merged (upserted
per item by id) rather than wholly replaced, the last-synced-time slot is
set to the sync wall-clock time by both passes, and the history,
foodHistory and streakData objects must not themselves contain an
`updatedAt` key (the upload's spread injects that key and the download
strips it, so such a key does not round-trip). -/
theorem C3_cycle_restores_amended (loc : Loc) (rem : Remote) (u : Nat)
    (now : Time) (today : Day)
    (h1 : alHas loc.weeklyHistory "updatedAt" = false)
    (h2 : alHas loc.foodHistory "updatedAt" = false)
    (h3 : alHas loc.streakData "updatedAt" = false) :
    ((syncFromCloud noFaults true now today
        ((uploadLocalToCloud noFaults true (some u) now today
          (St.init loc rem)).st)).st).loc =
      { loc with lastSync := some now,
                 recipes := mergeMany loc.recipes now loc.recipes,
                 templates := mergeMany loc.templates now
                   (loc.templates.filter (fun t => !t.isPrebuilt)) } := by
  have e1 : alErase (objDocOf loc.weeklyHistory now) "updatedAt" =
      loc.weeklyHistory := alErase_alSet _ _ _ h1
  have e2 : alErase (objDocOf loc.foodHistory now) "updatedAt" =
      loc.foodHistory := alErase_alSet _ _ _ h2
  have e3 : alErase (objDocOf loc.streakData now) "updatedAt" =
      loc.streakData := alErase_alSet _ _ _ h3
  rw [upload_noFaults]
  simp [syncFromCloud, downBody, downCore, seqE, liftE, stepR_noFaults, comb,
    applyProfileSnap, applyFoodLogSnap, applyHistorySnap, applyFoodHistorySnap,
    applyFavoritesSnap, applyRecentSnap, applyWeightSnap, applyStreakSnap,
    uploadedRemote, applyBatch, profileDocOf, foodLogDocOf,
    recipesHydrate_eq, templatesHydrate_eq, saveRecipesLoop_noFaults,
    saveTemplatesLoop_noFaults, finishSync, alGet, e1, e2, e3,
    Option.or_self, Bool.or_self, Outcome.st, St.init]

/-- Witness for C3 (amended) at a concrete input. -/
theorem C3_cycle_restores_amended_witness :
    ((syncFromCloud noFaults true 1000 42
        ((uploadLocalToCloud noFaults true (some 1) 1000 42
          (St.init sampleLoc emptyRemote)).st)).st).loc =
      { sampleLoc with lastSync := some 1000,
                       recipes := mergeMany sampleLoc.recipes 1000 sampleLoc.recipes,
                       templates := mergeMany sampleLoc.templates 1000
                         (sampleLoc.templates.filter (fun t => !t.isPrebuilt)) } :=
  C3_cycle_restores_amended sampleLoc emptyRemote 1 1000 42
    (by decide) (by decide) (by decide)

/-- C3 counterexample: the claim as stated — "restores every Local Store
slot to its pre-upload value, except recipes and templates" — fails at
this concrete input: a foodHistory object carrying its own `updatedAt`
key loses that entry over the cycle, and the last-synced-time slot (also
a Local Store slot) is overwritten with the sync time. -/
theorem C3_cycle_counterexample :
    ((syncFromCloud noFaults true 1000 42
        ((uploadLocalToCloud noFaults true (some 1) 1000 42
          (St.init clashLoc emptyRemote)).st)).st).loc.foodHistory ≠
      clashLoc.foodHistory ∧
    ((syncFromCloud noFaults true 1000 42
        ((uploadLocalToCloud noFaults true (some 1) 1000 42
          (St.init clashLoc emptyRemote)).st)).st).loc.lastSync ≠
      clashLoc.lastSync := by
  have e2 : alErase (objDocOf clashLoc.foodHistory 1000) "updatedAt" =
      ([] : Obj) := by decide
  rw [upload_noFaults]
  simp [syncFromCloud, downBody, downCore, seqE, liftE, stepR_noFaults, comb,
    applyProfileSnap, applyFoodLogSnap, applyHistorySnap, applyFoodHistorySnap,
    applyFavoritesSnap, applyRecentSnap, applyWeightSnap, applyStreakSnap,
    uploadedRemote, applyBatch, profileDocOf, foodLogDocOf,
    recipesHydrate_eq, templatesHydrate_eq, saveRecipesLoop_noFaults,
    saveTemplatesLoop_noFaults, finishSync, alGet, e2,
    Outcome.st, St.init, clashLoc, sampleLoc]
  decide

end HawkFuel
